import Mathlib

/-
Verification of the orchestration layer of the ScratchAgentic repository:
the gate-checked chain executor (01_chaining notebook), the confidence
router (02_routing notebook) and the parallel validator
(03_parallelization notebook).  Each notebook's data models and control
flow are embedded shallowly: the external structured-generation calls are
modelled as oracle functions supplied in an environment record, and every
orchestration function additionally returns the ordered list of structured
calls it issued, so that call-count and call-order properties are provable.
Confidence scores are modelled as rationals; the notebooks compare a score
against the literal 0.7, which is the same value on both sides of the
comparison, so the rational model decides the boundary cases exactly as the
floating-point code does.
-/

namespace Chaining

/-- First LLM call result: extract basic event information. -/
structure EventExtraction where
  description : String
  is_calendar_event : Bool
  confidence_score : ℚ
deriving DecidableEq

/-- Second LLM call result: parse specific event details. -/
structure EventDetails where
  name : String
  date : String
  duration_minutes : Int
  participants : List String
deriving DecidableEq

/-- Third LLM call result: generate confirmation message. -/
structure EventConfirmation where
  confirmation_message : String
  calendar_link : Option String
deriving DecidableEq

/-- One structured call issued by the chain, tagged with the exact input
the stage received. -/
inductive ChainCall where
  | extractCall (user_input : String)
  | parseCall (description : String)
  | confirmCall (details : EventDetails)
deriving DecidableEq

/-- Oracles for the three structured calls of the chain
(extract_event_info, parse_event_details, generate_confirmation). -/
structure ChainEnv where
  extract_event_info : String → EventExtraction
  parse_event_details : String → EventDetails
  generate_confirmation : EventDetails → EventConfirmation

/-- Main function implementing the prompt chain with gate check.  Mirrors
process_calendar_request of the chaining notebook: stage 1 always runs;
if not is_calendar_event or confidence_score < 0.7 the function returns
None having issued only the stage-1 call; otherwise stage 2 runs on the
stage-1 description and stage 3 on the stage-2 result. -/
def process_calendar_request (env : ChainEnv) (user_input : String) :
    Option EventConfirmation × List ChainCall :=
  let initial_extraction := env.extract_event_info user_input
  if initial_extraction.is_calendar_event = false ∨
      initial_extraction.confidence_score < 7 / 10 then
    (none, [ChainCall.extractCall user_input])
  else
    let event_details := env.parse_event_details initial_extraction.description
    let confirmation := env.generate_confirmation event_details
    (some confirmation,
      [ChainCall.extractCall user_input,
        ChainCall.parseCall initial_extraction.description,
        ChainCall.confirmCall event_details])

end Chaining

/-- A chain oracle whose stage-1 extraction reports a non-calendar input
with high confidence; used to exercise the gate-failure path. -/
def rejectChainEnv : Chaining.ChainEnv where
  extract_event_info := fun _ =>
    { description := "send an email to Alice",
      is_calendar_event := false,
      confidence_score := 9 / 10 }
  parse_event_details := fun _ =>
    { name := "Team Meeting", date := "2025-03-18T14:00:00",
      duration_minutes := 60, participants := ["Alice", "Bob"] }
  generate_confirmation := fun _ =>
    { confirmation_message := "Confirmed.", calendar_link := none }

/-- A chain oracle whose stage-1 extraction reports a calendar event with
confidence 0.95; used to exercise the gate-pass path. -/
def passChainEnv : Chaining.ChainEnv where
  extract_event_info := fun _ =>
    { description := "team meeting next Tuesday at 2pm",
      is_calendar_event := true,
      confidence_score := 95 / 100 }
  parse_event_details := fun d =>
    { name := "Team Meeting", date := "2025-03-18T14:00:00",
      duration_minutes := 60, participants := [d] }
  generate_confirmation := fun details =>
    { confirmation_message := details.name, calendar_link := none }

/-- Claim C1: whenever the stage-1 extraction has its boolean flag false or
its confidence below 0.7, the chain executor returns the Rejected sentinel
None and the call trace is exactly the single stage-1 call: neither the
details-parsing call nor the confirmation call is issued. -/
theorem chain_gate_failure_single_call (env : Chaining.ChainEnv) (user_input : String)
    (h : (env.extract_event_info user_input).is_calendar_event = false ∨
      (env.extract_event_info user_input).confidence_score < 7 / 10) :
    Chaining.process_calendar_request env user_input =
      (none, [Chaining.ChainCall.extractCall user_input]) := by
  unfold Chaining.process_calendar_request
  simp only [if_pos h]

/-- Witness for C1: on the concrete rejecting oracle the hypothesis holds
and the executor returns None with a one-call trace. -/
theorem chain_gate_failure_single_call_witness :
    (rejectChainEnv.extract_event_info "email request").is_calendar_event = false ∧
    Chaining.process_calendar_request rejectChainEnv "email request" =
      (none, [Chaining.ChainCall.extractCall "email request"]) :=
  ⟨rfl, chain_gate_failure_single_call rejectChainEnv "email request" (Or.inl rfl)⟩

/-- Claim C4: the chain's gate predicate is exactly flag = true together
with confidence at least 0.7 inclusive: the downstream stages are issued
(and the chained confirmation returned) if and only if the stage-1 flag is
true and the confidence is greater than or equal to 0.7, so confidence
exactly 0.7 with flag true passes the gate. -/
theorem chain_gate_inclusive (env : Chaining.ChainEnv) (user_input : String) :
    Chaining.process_calendar_request env user_input =
      (some (env.generate_confirmation (env.parse_event_details
          (env.extract_event_info user_input).description)),
        [Chaining.ChainCall.extractCall user_input,
          Chaining.ChainCall.parseCall (env.extract_event_info user_input).description,
          Chaining.ChainCall.confirmCall (env.parse_event_details
            (env.extract_event_info user_input).description)]) ↔
      ((env.extract_event_info user_input).is_calendar_event = true ∧
        7 / 10 ≤ (env.extract_event_info user_input).confidence_score) := by
  unfold Chaining.process_calendar_request
  by_cases h : (env.extract_event_info user_input).is_calendar_event = false ∨
      (env.extract_event_info user_input).confidence_score < 7 / 10
  · simp only [if_pos h]
    constructor
    · intro hcontra
      simp at hcontra
    · rintro ⟨hflag, hconf⟩
      rcases h with h | h
      · rw [hflag] at h; exact absurd h (by simp)
      · exact absurd hconf (not_le.mpr h)
  · simp only [if_neg h]
    push_neg at h
    refine ⟨fun _ => ⟨?_, h.2⟩, fun _ => trivial⟩
    cases hb : (env.extract_event_info user_input).is_calendar_event with
    | false => exact absurd hb h.1
    | true => rfl

/-- Claim C7: on gate pass, stage 2 receives exactly the stage-1 result's
description field, stage 3 receives exactly the stage-2 result, and the
three structured calls happen in declared order, so the final value is the
confirmation of the parsed details of the stage-1 description and the raw
user input never reaches stages 2 or 3. -/
theorem chain_stage_dataflow (env : Chaining.ChainEnv) (user_input : String)
    (hflag : (env.extract_event_info user_input).is_calendar_event = true)
    (hconf : 7 / 10 ≤ (env.extract_event_info user_input).confidence_score) :
    Chaining.process_calendar_request env user_input =
      (some (env.generate_confirmation (env.parse_event_details
          (env.extract_event_info user_input).description)),
        [Chaining.ChainCall.extractCall user_input,
          Chaining.ChainCall.parseCall (env.extract_event_info user_input).description,
          Chaining.ChainCall.confirmCall (env.parse_event_details
            (env.extract_event_info user_input).description)]) := by
  unfold Chaining.process_calendar_request
  rw [if_neg]
  push_neg
  exact ⟨by simp [hflag], hconf⟩

/-- Witness for C7: on the concrete passing oracle both hypotheses hold and
the executor returns the confirmation built from the chained stages with
the three-call trace. -/
theorem chain_stage_dataflow_witness :
    (passChainEnv.extract_event_info "meeting").is_calendar_event = true ∧
    7 / 10 ≤ (passChainEnv.extract_event_info "meeting").confidence_score ∧
    Chaining.process_calendar_request passChainEnv "meeting" =
      (some { confirmation_message := "Team Meeting", calendar_link := none },
        [Chaining.ChainCall.extractCall "meeting",
          Chaining.ChainCall.parseCall "team meeting next Tuesday at 2pm",
          Chaining.ChainCall.confirmCall
            { name := "Team Meeting", date := "2025-03-18T14:00:00",
              duration_minutes := 60,
              participants := ["team meeting next Tuesday at 2pm"] }]) :=
  ⟨rfl, by norm_num [passChainEnv],
    chain_stage_dataflow passChainEnv "meeting" rfl (by norm_num [passChainEnv])⟩

namespace Routing

/-- Router LLM call result: type of calendar request with confidence and a
cleaned description.  The source declares request_type as a string literal
type over new_event, modify_event and other; the dispatch itself compares
strings, so the field is embedded as a string. -/
structure CalendarRequestType where
  request_type : String
  confidence_score : ℚ
  description : String
deriving DecidableEq

/-- Details for creating a new event. -/
structure NewEventDetails where
  name : String
  date : String
  duration_minutes : Int
  participants : List String
deriving DecidableEq

/-- Details for changing an existing event. -/
structure Change where
  field : String
  new_value : String
deriving DecidableEq

/-- Details for modifying an existing event. -/
structure ModifyEventDetails where
  event_identifier : String
  changes : List Change
  participants_to_add : List String
  participants_to_remove : List String
deriving DecidableEq

/-- Final response format of the router workflow. -/
structure CalendarResponse where
  success : Bool
  message : String
  calendar_link : Option String
deriving DecidableEq

/-- One structured call issued by the router workflow, tagged with the
exact input the call received. -/
inductive RouterCall where
  | routeCall (user_input : String)
  | newEventDetailsCall (description : String)
  | modifyEventDetailsCall (description : String)
deriving DecidableEq

/-- Oracles for the three structured calls of the routing notebook: the
router classification call and the two per-handler detail extractions. -/
structure RouterEnv where
  route_calendar_request : String → CalendarRequestType
  new_event_details : String → NewEventDetails
  modify_event_details : String → ModifyEventDetails

/-- Process a new event request: one structured call extracting
NewEventDetails, then deterministic construction of the response. -/
def handle_new_event (env : RouterEnv) (description : String) :
    CalendarResponse × List RouterCall :=
  let details := env.new_event_details description
  ({ success := true,
     message := "Created new event \x27" ++ details.name ++ "\x27 for "
       ++ details.date ++ " with " ++ String.intercalate ", " details.participants,
     calendar_link := some ("calendar://new?event=" ++ details.name) },
    [RouterCall.newEventDetailsCall description])

/-- Process an event modification request: one structured call extracting
ModifyEventDetails, then deterministic construction of the response. -/
def handle_modify_event (env : RouterEnv) (description : String) :
    CalendarResponse × List RouterCall :=
  let details := env.modify_event_details description
  ({ success := true,
     message := "Modified event \x27" ++ details.event_identifier
       ++ "\x27 with the requested changes",
     calendar_link := some ("calendar://modify?event=" ++ details.event_identifier) },
    [RouterCall.modifyEventDetailsCall description])

/-- Main function implementing the routing workflow.  Mirrors
process_calendar_request of the routing notebook: one classification call,
then None if confidence_score < 0.7, else dispatch on request_type with
new_event and modify_event the only supported categories. -/
def process_calendar_request (env : RouterEnv) (user_input : String) :
    Option CalendarResponse × List RouterCall :=
  let route_result := env.route_calendar_request user_input
  if route_result.confidence_score < 7 / 10 then
    (none, [RouterCall.routeCall user_input])
  else if route_result.request_type = "new_event" then
    let handled := handle_new_event env route_result.description
    (some handled.1, RouterCall.routeCall user_input :: handled.2)
  else if route_result.request_type = "modify_event" then
    let handled := handle_modify_event env route_result.description
    (some handled.1, RouterCall.routeCall user_input :: handled.2)
  else
    (none, [RouterCall.routeCall user_input])

/-- Number of new-event detail extraction calls in a trace. -/
def countNewEventCalls (calls : List RouterCall) : Nat :=
  calls.countP fun c =>
    match c with
    | RouterCall.newEventDetailsCall _ => true
    | _ => false

/-- Number of modify-event detail extraction calls in a trace. -/
def countModifyEventCalls (calls : List RouterCall) : Nat :=
  calls.countP fun c =>
    match c with
    | RouterCall.modifyEventDetailsCall _ => true
    | _ => false

/-- Number of router classification calls in a trace. -/
def countRouteCalls (calls : List RouterCall) : Nat :=
  calls.countP fun c =>
    match c with
    | RouterCall.routeCall _ => true
    | _ => false

end Routing

/-- A router oracle classifying its input as new_event with confidence
0.95; used to exercise the dispatch path. -/
def newEventRouterEnv : Routing.RouterEnv where
  route_calendar_request := fun _ =>
    { request_type := "new_event", confidence_score := 95 / 100,
      description := "team meeting next Tuesday at 2pm with Alice and Bob" }
  new_event_details := fun _ =>
    { name := "Team Meeting", date := "2023-10-31T14:00:00",
      duration_minutes := 60, participants := ["Alice", "Bob"] }
  modify_event_details := fun _ =>
    { event_identifier := "team meeting", changes := [],
      participants_to_add := [], participants_to_remove := [] }

/-- A router oracle classifying its input as new_event but with low
confidence 0.5; used to exercise the low-confidence rejection path. -/
def lowConfRouterEnv : Routing.RouterEnv where
  route_calendar_request := fun _ =>
    { request_type := "new_event", confidence_score := 5 / 10,
      description := "unclear request" }
  new_event_details := fun _ =>
    { name := "Team Meeting", date := "2023-10-31T14:00:00",
      duration_minutes := 60, participants := ["Alice", "Bob"] }
  modify_event_details := fun _ =>
    { event_identifier := "team meeting", changes := [],
      participants_to_add := [], participants_to_remove := [] }

/-- A router oracle classifying its input as the unsupported category
other with confidence 0.9; used to exercise the unsupported rejection. -/
def otherRouterEnv : Routing.RouterEnv where
  route_calendar_request := fun _ =>
    { request_type := "other", confidence_score := 9 / 10,
      description := "weather question" }
  new_event_details := fun _ =>
    { name := "Team Meeting", date := "2023-10-31T14:00:00",
      duration_minutes := 60, participants := ["Alice", "Bob"] }
  modify_event_details := fun _ =>
    { event_identifier := "team meeting", changes := [],
      participants_to_add := [], participants_to_remove := [] }

/-- Claim C2: router dispatch is exhaustive and exclusive.  The trace holds
exactly one new-event handler call when confidence is at least 0.7 and the
category is new_event and none otherwise; exactly one modify-event handler
call when confidence is at least 0.7 and the category is modify_event and
none otherwise; and a response is produced exactly when confidence is at
least 0.7 and the category is one of the two supported ones, every other
case returning the Rejected outcome None. -/
theorem router_dispatch_exhaustive_exclusive (env : Routing.RouterEnv)
    (user_input : String) :
    Routing.countNewEventCalls (Routing.process_calendar_request env user_input).2 =
      (if 7 / 10 ≤ (env.route_calendar_request user_input).confidence_score ∧
          (env.route_calendar_request user_input).request_type = "new_event"
        then 1 else 0) ∧
    Routing.countModifyEventCalls (Routing.process_calendar_request env user_input).2 =
      (if 7 / 10 ≤ (env.route_calendar_request user_input).confidence_score ∧
          (env.route_calendar_request user_input).request_type = "modify_event"
        then 1 else 0) ∧
    ((Routing.process_calendar_request env user_input).1.isSome = true ↔
      7 / 10 ≤ (env.route_calendar_request user_input).confidence_score ∧
        ((env.route_calendar_request user_input).request_type = "new_event" ∨
          (env.route_calendar_request user_input).request_type = "modify_event")) := by
  unfold Routing.process_calendar_request
  by_cases hconf : (env.route_calendar_request user_input).confidence_score < 7 / 10
  · have hle : ¬ 7 / 10 ≤ (env.route_calendar_request user_input).confidence_score :=
      not_le.mpr hconf
    simp [hconf, hle, Routing.countNewEventCalls, Routing.countModifyEventCalls]
  · have hle : 7 / 10 ≤ (env.route_calendar_request user_input).confidence_score :=
      not_lt.mp hconf
    by_cases hnew : (env.route_calendar_request user_input).request_type = "new_event"
    · simp only [hconf, hle, hnew, if_true, if_false, ite_true, ite_false,
        Routing.handle_new_event]
      simp [hle, hnew]
      exact ⟨rfl, rfl⟩
    · by_cases hmod : (env.route_calendar_request user_input).request_type = "modify_event"
      · simp only [hconf, hle, hnew, hmod, Routing.handle_modify_event]
        simp [hle, hnew, hmod]
        exact ⟨rfl, rfl⟩
      · simp [hconf, hle, hnew, hmod, Routing.countNewEventCalls,
          Routing.countModifyEventCalls]

/-- Claim C8: each handler issues exactly one structured call (its own
detail extraction) and deterministically builds a response with success
true, a message built from the extracted fields and a link token; the
trace of either handler holds no router call and no call belonging to the
other handler. -/
theorem router_handlers_single_call_envelope (env : Routing.RouterEnv)
    (description : String) :
    Routing.handle_new_event env description =
      ({ success := true,
         message := "Created new event \x27"
           ++ (env.new_event_details description).name ++ "\x27 for "
           ++ (env.new_event_details description).date ++ " with "
           ++ String.intercalate ", " (env.new_event_details description).participants,
         calendar_link :=
           some ("calendar://new?event=" ++ (env.new_event_details description).name) },
        [Routing.RouterCall.newEventDetailsCall description]) ∧
    Routing.handle_modify_event env description =
      ({ success := true,
         message := "Modified event \x27"
           ++ (env.modify_event_details description).event_identifier
           ++ "\x27 with the requested changes",
         calendar_link := some ("calendar://modify?event="
           ++ (env.modify_event_details description).event_identifier) },
        [Routing.RouterCall.modifyEventDetailsCall description]) ∧
    Routing.countRouteCalls (Routing.handle_new_event env description).2 = 0 ∧
    Routing.countRouteCalls (Routing.handle_modify_event env description).2 = 0 ∧
    Routing.countModifyEventCalls (Routing.handle_new_event env description).2 = 0 ∧
    Routing.countNewEventCalls (Routing.handle_modify_event env description).2 = 0 :=
  ⟨rfl, rfl, rfl, rfl, rfl, rfl⟩

/-- Claim C10: both non-error rejections of the router return exactly the
same sentinel None: a low-confidence rejection and an unsupported-category
rejection produce the identical returned value, so the caller cannot tell
the two causes apart from the result alone. -/
theorem router_rejections_indistinguishable (env1 env2 : Routing.RouterEnv)
    (in1 in2 : String)
    (h1 : (env1.route_calendar_request in1).confidence_score < 7 / 10)
    (h2 : 7 / 10 ≤ (env2.route_calendar_request in2).confidence_score)
    (h3 : (env2.route_calendar_request in2).request_type ≠ "new_event")
    (h4 : (env2.route_calendar_request in2).request_type ≠ "modify_event") :
    (Routing.process_calendar_request env1 in1).1 = none ∧
    (Routing.process_calendar_request env2 in2).1 = none ∧
    (Routing.process_calendar_request env1 in1).1 =
      (Routing.process_calendar_request env2 in2).1 := by
  have e1 : (Routing.process_calendar_request env1 in1).1 = none := by
    unfold Routing.process_calendar_request
    simp [h1]
  have e2 : (Routing.process_calendar_request env2 in2).1 = none := by
    unfold Routing.process_calendar_request
    simp [not_lt.mpr h2, h3, h4]
  exact ⟨e1, e2, e1.trans e2.symm⟩

/-- Witness for C10: concrete low-confidence and unsupported-category
oracles satisfy the hypotheses and both rejections are the same None. -/
theorem router_rejections_indistinguishable_witness :
    (lowConfRouterEnv.route_calendar_request "a").confidence_score < 7 / 10 ∧
    7 / 10 ≤ (otherRouterEnv.route_calendar_request "b").confidence_score ∧
    (otherRouterEnv.route_calendar_request "b").request_type = "other" ∧
    (Routing.process_calendar_request lowConfRouterEnv "a").1 = none ∧
    (Routing.process_calendar_request otherRouterEnv "b").1 = none :=
  ⟨by norm_num [lowConfRouterEnv], by norm_num [otherRouterEnv], rfl,
    (router_rejections_indistinguishable lowConfRouterEnv otherRouterEnv "a" "b"
      (by norm_num [lowConfRouterEnv]) (by norm_num [otherRouterEnv])
      (by simp [otherRouterEnv]) (by simp [otherRouterEnv])).1,
    (router_rejections_indistinguishable lowConfRouterEnv otherRouterEnv "a" "b"
      (by norm_num [lowConfRouterEnv]) (by norm_num [otherRouterEnv])
      (by simp [otherRouterEnv]) (by simp [otherRouterEnv])).2.1⟩

namespace Parallelization

/-- Calendar validation check result: whether the input is a calendar
request, with a confidence score. -/
structure CalendarValidation where
  is_calendar_request : Bool
  confidence_score : ℚ
deriving DecidableEq

/-- Security check result: whether the input appears safe, with a list of
potential security concerns. -/
structure SecurityCheck where
  is_safe : Bool
  risk_flags : List String
deriving DecidableEq

/-- Oracles for the two structured calls of the parallel validator
(validate_calendar_request and check_security). -/
structure ValidationEnv where
  validate_calendar_request : String → CalendarValidation
  check_security : String → SecurityCheck

/-- Order in which the two concurrently issued branches happen to
complete; asyncio gather delivers results positionally regardless. -/
inductive CompletionOrder where
  | calendarFirst
  | securityFirst
deriving DecidableEq

/-- Fan-out and fan-in of the two branches: both checks run on the same
input, in whichever completion order, and the joined pair is positional
(calendar result first) exactly as asyncio gather returns it. -/
def gather_checks (env : ValidationEnv) (user_input : String) :
    CompletionOrder → CalendarValidation × SecurityCheck
  | CompletionOrder.calendarFirst =>
      let calendar_check := env.validate_calendar_request user_input
      let security_check := env.check_security user_input
      (calendar_check, security_check)
  | CompletionOrder.securityFirst =>
      let security_check := env.check_security user_input
      let calendar_check := env.validate_calendar_request user_input
      (calendar_check, security_check)

/-- The validator's combination rule as written in validate_request:
is_calendar_request and confidence_score > 0.7 and is_safe. -/
def is_valid_combine (calendar_check : CalendarValidation)
    (security_check : SecurityCheck) : Bool :=
  calendar_check.is_calendar_request
    && decide (calendar_check.confidence_score > 7 / 10)
    && security_check.is_safe

/-- Main validation function: run both checks in parallel and return the
combined boolean verdict.  Mirrors validate_request of the
parallelization notebook, which returns only this boolean; the risk flags
are logged on failure but are not part of the returned value. -/
def validate_request (env : ValidationEnv) (user_input : String)
    (order : CompletionOrder) : Bool :=
  let checks := gather_checks env user_input order
  is_valid_combine checks.1 checks.2

/-- The calendar branch's own verdict: its boolean field together with its
check-specific threshold condition. -/
def calendar_verdict (calendar_check : CalendarValidation) : Bool :=
  calendar_check.is_calendar_request
    && decide (calendar_check.confidence_score > 7 / 10)

/-- The security branch's own verdict: its boolean field (it has no
threshold condition). -/
def security_verdict (security_check : SecurityCheck) : Bool :=
  security_check.is_safe

/-- Replace the risk_flags reported by the security oracle, leaving
everything else unchanged. -/
def with_risk_flags (env : ValidationEnv) (flags : List String) : ValidationEnv where
  validate_calendar_request := env.validate_calendar_request
  check_security := fun user_input =>
    { is_safe := (env.check_security user_input).is_safe, risk_flags := flags }

end Parallelization

/-- A validator oracle realizing scenario C: the calendar check returns
(true, 0.9) and the security check returns (false, flags jailbreak). -/
def scenarioFlaggedEnv : Parallelization.ValidationEnv where
  validate_calendar_request := fun _ =>
    { is_calendar_request := true, confidence_score := 9 / 10 }
  check_security := fun _ =>
    { is_safe := false, risk_flags := ["jailbreak"] }

/-- The same oracle as scenarioFlaggedEnv except that the security check
reports no risk flags at all. -/
def scenarioUnflaggedEnv : Parallelization.ValidationEnv where
  validate_calendar_request := fun _ =>
    { is_calendar_request := true, confidence_score := 9 / 10 }
  check_security := fun _ =>
    { is_safe := false, risk_flags := [] }

/-- Claim C3: the validator's overall verdict is the conjunction of the
per-check verdicts (calendar boolean with its threshold condition, and the
security boolean), it does not depend on the completion order of the
branches, and the conjunction of any pair of check verdicts is
commutative. -/
theorem validator_conjunction_commutative (env : Parallelization.ValidationEnv)
    (user_input : String) (o o' : Parallelization.CompletionOrder) :
    Parallelization.validate_request env user_input o =
      (Parallelization.calendar_verdict (env.validate_calendar_request user_input)
        && Parallelization.security_verdict (env.check_security user_input)) ∧
    Parallelization.validate_request env user_input o =
      Parallelization.validate_request env user_input o' ∧
    (∀ (c : Parallelization.CalendarValidation) (s : Parallelization.SecurityCheck),
      (Parallelization.calendar_verdict c && Parallelization.security_verdict s) =
        (Parallelization.security_verdict s && Parallelization.calendar_verdict c)) := by
  refine ⟨?_, ?_, fun c s => Bool.and_comm _ _⟩
  · cases o <;>
      simp [Parallelization.validate_request, Parallelization.gather_checks,
        Parallelization.is_valid_combine, Parallelization.calendar_verdict,
        Parallelization.security_verdict, Bool.and_assoc]
  · cases o <;> cases o' <;> rfl

/-- A validator oracle at the exact threshold boundary: calendar check
(true, 0.7) and a safe security check with no flags. -/
def boundaryValidationEnv : Parallelization.ValidationEnv where
  validate_calendar_request := fun _ =>
    { is_calendar_request := true, confidence_score := 7 / 10 }
  check_security := fun _ =>
    { is_safe := true, risk_flags := [] }

/-- A chain oracle at the exact threshold boundary: the stage-1 extraction
reports a calendar event with confidence exactly 0.7. -/
def boundaryChainEnv : Chaining.ChainEnv where
  extract_event_info := fun _ =>
    { description := "lunch tomorrow at noon",
      is_calendar_event := true,
      confidence_score := 7 / 10 }
  parse_event_details := fun _ =>
    { name := "Lunch", date := "2025-03-11T12:00:00",
      duration_minutes := 30, participants := [] }
  generate_confirmation := fun details =>
    { confirmation_message := details.name, calendar_link := none }

/-- A router oracle at the exact threshold boundary: classification is
new_event with confidence exactly 0.7. -/
def boundaryRouterEnv : Routing.RouterEnv where
  route_calendar_request := fun _ =>
    { request_type := "new_event", confidence_score := 7 / 10,
      description := "lunch tomorrow at noon" }
  new_event_details := fun _ =>
    { name := "Lunch", date := "2025-03-11T12:00:00",
      duration_minutes := 30, participants := [] }
  modify_event_details := fun _ =>
    { event_identifier := "lunch", changes := [],
      participants_to_add := [], participants_to_remove := [] }

/-- Counterexample to C5: the Parallel Validator's comparison is strict,
not inclusive: with the calendar check returning true at confidence
exactly 0.7 and a safe security check, validate_request returns false
where the claim requires valid (true). -/
theorem validator_boundary_counterexample :
    Parallelization.validate_request boundaryValidationEnv "schedule lunch"
      Parallelization.CompletionOrder.calendarFirst = false := by
  simp [Parallelization.validate_request, Parallelization.gather_checks,
    Parallelization.is_valid_combine, boundaryValidationEnv]

/-- Claim C5 as amended: the chain executor and the router use an
inclusive lower bound at 0.7 (flag true with confidence exactly 0.7
passes the gate, and a supported category with confidence exactly 0.7 is
dispatched), but the Parallel Validator's comparison is strict: any
calendar check with confidence exactly 0.7 makes the combined verdict
false regardless of the security check. -/
theorem threshold_boundary_amended (env : Chaining.ChainEnv) (u : String)
    (envR : Routing.RouterEnv) (v : String) :
    ((env.extract_event_info u).is_calendar_event = true →
      (env.extract_event_info u).confidence_score = 7 / 10 →
      (Chaining.process_calendar_request env u).1 =
        some (env.generate_confirmation (env.parse_event_details
          (env.extract_event_info u).description))) ∧
    ((envR.route_calendar_request v).confidence_score = 7 / 10 →
      (envR.route_calendar_request v).request_type = "new_event" →
      (Routing.process_calendar_request envR v).1 =
        some (Routing.handle_new_event envR
          (envR.route_calendar_request v).description).1) ∧
    (∀ (c : Parallelization.CalendarValidation) (s : Parallelization.SecurityCheck),
      c.confidence_score = 7 / 10 → Parallelization.is_valid_combine c s = false) := by
  refine ⟨?_, ?_, ?_⟩
  · intro hflag hconf
    unfold Chaining.process_calendar_request
    rw [if_neg]
    push_neg
    exact ⟨by simp [hflag], by rw [hconf]⟩
  · intro hconf htype
    unfold Routing.process_calendar_request
    rw [if_neg (by rw [hconf]; exact lt_irrefl _), if_pos htype]
  · intro c s hc
    simp [Parallelization.is_valid_combine, hc]

/-- Witness for the amended C5: at the concrete boundary oracles every
hypothesis holds, the chain and the router both proceed at confidence
exactly 0.7, and the validator rejects at confidence exactly 0.7. -/
theorem threshold_boundary_amended_witness :
    (boundaryChainEnv.extract_event_info "m").is_calendar_event = true ∧
    (boundaryChainEnv.extract_event_info "m").confidence_score = 7 / 10 ∧
    (boundaryRouterEnv.route_calendar_request "m").confidence_score = 7 / 10 ∧
    (boundaryRouterEnv.route_calendar_request "m").request_type = "new_event" ∧
    (Chaining.process_calendar_request boundaryChainEnv "m").1 =
      some (boundaryChainEnv.generate_confirmation
        (boundaryChainEnv.parse_event_details
          (boundaryChainEnv.extract_event_info "m").description)) ∧
    (Routing.process_calendar_request boundaryRouterEnv "m").1 =
      some (Routing.handle_new_event boundaryRouterEnv
        (boundaryRouterEnv.route_calendar_request "m").description).1 ∧
    Parallelization.is_valid_combine
      { is_calendar_request := true, confidence_score := 7 / 10 }
      { is_safe := true, risk_flags := [] } = false :=
  ⟨rfl, rfl, rfl, rfl,
    (threshold_boundary_amended boundaryChainEnv "m" boundaryRouterEnv "m").1 rfl rfl,
    (threshold_boundary_amended boundaryChainEnv "m" boundaryRouterEnv "m").2.1 rfl rfl,
    (threshold_boundary_amended boundaryChainEnv "m" boundaryRouterEnv "m").2.2
      { is_calendar_request := true, confidence_score := 7 / 10 }
      { is_safe := true, risk_flags := [] } rfl⟩

/-- Counterexample to C6: the validator's returned value does not contain
the per-check results: on scenario C (calendar (true, 0.9), security
(false, flags jailbreak)) it returns the bare boolean false, and the same
bare false is returned when the security check carries no flags at all,
so the diagnostic detail list is not preserved in the output. -/
theorem validator_output_drops_flags_counterexample :
    Parallelization.validate_request scenarioFlaggedEnv "input"
      Parallelization.CompletionOrder.calendarFirst = false ∧
    Parallelization.validate_request scenarioUnflaggedEnv "input"
      Parallelization.CompletionOrder.calendarFirst = false ∧
    (scenarioFlaggedEnv.check_security "input").risk_flags = ["jailbreak"] ∧
    (scenarioUnflaggedEnv.check_security "input").risk_flags = [] := by
  refine ⟨?_, ?_, rfl, rfl⟩ <;>
    simp [Parallelization.validate_request, Parallelization.gather_checks,
      Parallelization.is_valid_combine, scenarioFlaggedEnv, scenarioUnflaggedEnv]

/-- Claim C6 as amended: the validator returns only the overall boolean
verdict; the risk flags reported by the security check are not part of
the returned value, so the output is unchanged when they are replaced by
any other list, and on scenario C the returned value is just false. -/
theorem validator_returns_only_verdict (env : Parallelization.ValidationEnv)
    (user_input : String) (order : Parallelization.CompletionOrder)
    (flags : List String) :
    Parallelization.validate_request (Parallelization.with_risk_flags env flags)
        user_input order =
      Parallelization.validate_request env user_input order ∧
    Parallelization.validate_request scenarioFlaggedEnv user_input order = false := by
  constructor
  · cases order <;> rfl
  · cases order <;>
      simp [Parallelization.validate_request, Parallelization.gather_checks,
        Parallelization.is_valid_combine, scenarioFlaggedEnv]

/-- Claim C9: the validator's verdict depends only on the calendar check's
boolean and confidence and the security check's is_safe boolean: the
risk_flags list has no influence on the result, and when the calendar
check passes its threshold and is_safe is true the verdict is valid even
with a non-empty risk_flags list. -/
theorem validator_ignores_risk_flags (cal : Parallelization.CalendarValidation)
    (safe : Bool) (flags flags' : List String) :
    Parallelization.is_valid_combine cal { is_safe := safe, risk_flags := flags } =
      Parallelization.is_valid_combine cal { is_safe := safe, risk_flags := flags' } ∧
    (cal.is_calendar_request = true → 7 / 10 < cal.confidence_score → safe = true →
      Parallelization.is_valid_combine cal
        { is_safe := safe, risk_flags := flags } = true) := by
  refine ⟨rfl, fun h1 h2 h3 => ?_⟩
  simp [Parallelization.is_valid_combine, h1, h2, h3]

/-- Witness for C9: with calendar check (true, 0.9) and a security check
that is safe yet carries the non-empty flag list jailbreak, the
hypotheses hold and the combined verdict is valid. -/
theorem validator_ignores_risk_flags_witness :
    (7 : ℚ) / 10 < 9 / 10 ∧
    Parallelization.is_valid_combine
      { is_calendar_request := true, confidence_score := 9 / 10 }
      { is_safe := true, risk_flags := ["jailbreak"] } = true :=
  ⟨by norm_num,
    (validator_ignores_risk_flags
      { is_calendar_request := true, confidence_score := 9 / 10 }
      true ["jailbreak"] []).2 rfl (by norm_num) rfl⟩
